import Mathlib

/-!
Shallow embedding of the SSRF validator, request dispatcher, rate limiter and
job-polling engine of the openai-image-api repository, together with theorems
settling the frozen claims about them.

Strings from the JavaScript/TypeScript source are modelled as Lean `String`
values; character-level work is done on their underlying `List Char`
(JavaScript string indices are UTF-16 code units, our inputs are ASCII, so the
two views agree on everything the source manipulates).
-/

namespace OpenAIImageApi

/-- Lower-case a character list; models JavaScript `String.prototype.toLowerCase`
(ASCII range, which is all the source ever compares). -/
def toLowerL (l : List Char) : List Char :=
  l.map Char.toLower

/-- True iff the list starts with a literal opening bracket. -/
def startsWithBracket (l : List Char) : Bool :=
  match l with
  | '[' :: _ => true
  | _ => false

/-- True iff the list ends with a literal closing bracket. -/
def endsWithBracket (l : List Char) : Bool :=
  match l.getLast? with
  | some c => c == ']'
  | none => false

/-- Drop one leading opening bracket when present. -/
def stripHead (l : List Char) : List Char :=
  if startsWithBracket l then l.tail else l

/-- Drop one trailing closing bracket when present. -/
def stripTail (l : List Char) : List Char :=
  if endsWithBracket l then l.dropLast else l

/-- Models `ip.replace(/^\[|\]$/g, '')` from `isBlockedIP` (both copies):
drop one leading opening bracket and one trailing closing bracket,
each independently of the other. -/
def stripL (l : List Char) : List Char :=
  stripTail (stripHead l)

/-- Models the regex `/^172\.(1[6-9]|2[0-9]|3[0-1])\./` from the blocked
pattern list: the string starts with `172.`, then a two-digit second octet in
16..31, then a dot. -/
def matches172 (s : List Char) : Bool :=
  "172.".data.isPrefixOf s &&
  (match s.drop 4 with
   | c1 :: c2 :: c3 :: _ =>
     c3 == '.' &&
     ((c1 == '1' && ['6', '7', '8', '9'].contains c2) ||
      (c1 == '2' && ['0', '1', '2', '3', '4', '5', '6', '7', '8', '9'].contains c2) ||
      (c1 == '3' && ['0', '1'].contains c2))
   | _ => false)

/-- The body shared verbatim by both copies of `isBlockedIP`
(src/utils.js lines 51-80 and the TypeScript source): the localhost
variations, the cloud-metadata host list, and the anchored blocked
patterns `/^127\./, /^10\./, /^172\.(1[6-9]|2[0-9]|3[0-1])\./, /^192\.168\./,
/^169\.254\./, /^0\./, /^::1$/, /^fe80:/, /^fc00:/, /^fd00:/`,
applied to the bracket-stripped input. -/
def blockedBody (clean : List Char) : Bool :=
  (clean == "localhost".data || clean == "127.0.0.1".data || clean == "::1".data) ||
  (clean == "metadata.google.internal".data || clean == "metadata".data ||
   clean == "169.254.169.254".data) ||
  ("127.".data.isPrefixOf clean ||
   "10.".data.isPrefixOf clean ||
   matches172 clean ||
   "192.168.".data.isPrefixOf clean ||
   "169.254.".data.isPrefixOf clean ||
   "0.".data.isPrefixOf clean ||
   clean == "::1".data ||
   "fe80:".data.isPrefixOf clean ||
   "fc00:".data.isPrefixOf clean ||
   "fd00:".data.isPrefixOf clean)

/-- Models `cleanIP.toLowerCase().startsWith('::ffff:')` from the TypeScript
copy of `isBlockedIP`. -/
def mappedV4Check (clean : List Char) : Bool :=
  "::ffff:".data.isPrefixOf (toLowerL clean)

/-- Recursion core of the TypeScript copy of `isBlockedIP`, with an explicit
fuel argument standing in for the unbounded recursion of the source.  Each
unwrap of a `::ffff:` layer removes seven characters, so fuel equal to the
input length can never run out (`blockedAux_fuel` below); the fuel only makes
the recursion structurally terminating. -/
def blockedAux : Nat → List Char → Bool
  | 0, ip =>
    let clean := stripL ip
    if mappedV4Check clean then false else blockedBody clean
  | fuel + 1, ip =>
    let clean := stripL ip
    if mappedV4Check clean then blockedAux fuel (clean.drop 7) else blockedBody clean

/-- The legacy JavaScript copy of `isBlockedIP` (src/utils.js lines 47-81):
strip brackets, then the shared body.  It has no `::ffff:` unwrap. -/
def isBlockedIP_js (ip : String) : Bool :=
  blockedBody (stripL ip.data)

/-- The TypeScript copy of `isBlockedIP` (src/utils.ts, src/unnamed/part_000
lines 477-514): strip brackets, recursively unwrap IPv4-mapped-IPv6 layers
(`::ffff:<v4>`), then the shared body. -/
def isBlockedIP_ts (ip : String) : Bool :=
  blockedAux ip.data.length ip.data

/-! ### External collaborator: Node `net.isIPv4` / `net.isIPv6`

The validator branches on `isIPv4(hostname) || isIPv6(hostname)` from Node's
`net` module.  The two predicates below model that collaborator: a dotted-quad
IPv4 literal (four decimal octets 0-255, no leading zeros) and the textual
IPv6 grammar (1-4 hex-digit groups separated by colons, at most one `::`
compression, optional embedded dotted-quad IPv4 tail). -/

/-- Split a character list on a separator character; always returns at least
one (possibly empty) part. -/
def splitOnChar (sep : Char) : List Char → List (List Char)
  | [] => [[]]
  | c :: rest =>
    let r := splitOnChar sep rest
    if c == sep then [] :: r
    else
      match r with
      | h :: t => (c :: h) :: t
      | [] => [[c]]

/-- Decimal value of a digit list (digits already validated separately). -/
def decValue (l : List Char) : Nat :=
  l.foldl (fun n c => n * 10 + (c.toNat - 48)) 0

/-- A valid decimal octet: one to three digits, value at most 255, and no
leading zero (except the single digit `0`). -/
def isDecOctet (g : List Char) : Bool :=
  g.all Char.isDigit &&
  (decide (1 ≤ g.length) && decide (g.length ≤ 3)) &&
  (match g with
   | c :: _ :: _ => c != '0'
   | _ => true) &&
  decide (decValue g ≤ 255)

/-- Model of Node `net.isIPv4` on the character list of the input. -/
def isIPv4Core (s : List Char) : Bool :=
  match splitOnChar '.' s with
  | [a, b, c, d] => isDecOctet a && isDecOctet b && isDecOctet c && isDecOctet d
  | _ => false

/-- Model of Node `net.isIPv4`. -/
def isIPv4 (s : String) : Bool :=
  isIPv4Core s.data

/-- Hexadecimal digit (both cases). -/
def isHexDigitB (c : Char) : Bool :=
  c.isDigit || (decide (97 ≤ c.toNat) && decide (c.toNat ≤ 102)) ||
  (decide (65 ≤ c.toNat) && decide (c.toNat ≤ 70))

/-- A 16-bit IPv6 group: one to four hexadecimal digits. -/
def isHexGroup (g : List Char) : Bool :=
  decide (1 ≤ g.length) && decide (g.length ≤ 4) && g.all isHexDigitB

/-- Locate the first occurrence of a double colon, returning the characters
before and after it. -/
def findDoubleColon : List Char → Option (List Char × List Char)
  | ':' :: ':' :: rest => some ([], rest)
  | c :: rest => (findDoubleColon rest).map (fun p => (c :: p.1, p.2))
  | [] => none

/-- Count 16-bit groups in a colon-split part list; the last part may be an
embedded dotted-quad IPv4 tail (counting as two groups) when `allowV4` is
set.  Returns `none` on any invalid part. -/
def countGroups (allowV4 : Bool) : List (List Char) → Option Nat
  | [] => some 0
  | [g] =>
    if isHexGroup g then some 1
    else if allowV4 && isIPv4Core g then some 2
    else none
  | g :: rest =>
    if isHexGroup g then (countGroups allowV4 rest).map (· + 1) else none

/-- Model of Node `net.isIPv6` on the character list of the input. -/
def isIPv6Core (s : List Char) : Bool :=
  match findDoubleColon s with
  | none => countGroups true (splitOnChar ':' s) == some 8
  | some (before, after) =>
    (findDoubleColon after).isNone &&
    (let beforeParts := if before == [] then [] else splitOnChar ':' before
     let afterParts := if after == [] then [] else splitOnChar ':' after
     beforeParts.all (fun g => g != []) && afterParts.all (fun g => g != []) &&
     (match countGroups false beforeParts, countGroups true afterParts with
      | some k1, some k2 => decide (k1 + k2 ≤ 7)
      | _, _ => false))

/-- Model of Node `net.isIPv6`. -/
def isIPv6 (s : String) : Bool :=
  isIPv6Core s.data

/-! ### The URL validator (`validateImageUrl`, TypeScript source)

`validateImageUrl` is embedded over a pre-parsed URL (`none` models a parse
failure of `new URL(url)`) and an explicit DNS oracle standing for the
`dns/promises` `lookup` collaborator.  It uses the TypeScript copy of
`isBlockedIP`; the legacy JavaScript copy differs only in the predicate
(settled separately). -/

/-- Scheme and hostname of a successfully parsed URL, as produced by the
WHATWG `URL` class (`protocol` keeps the trailing colon; an IPv6 hostname
keeps its brackets). -/
structure ParsedUrl where
  protocol : String
  hostname : String
deriving DecidableEq

/-- Outcome of the `lookup(hostname)` DNS collaborator: a resolved address,
an `ENOTFOUND` failure, or any other resolver failure. -/
inductive DnsResult where
  | resolved (address : List Char)
  | notFound
  | failed
deriving DecidableEq

/-- Validation outcome taxonomy of `validateImageUrl`: each constructor
corresponds to one of the reject reasons of the source (one throw site each),
plus `accepted` for the returned URL. -/
inductive ValidationOutcome where
  | malformedUrl
  | nonHttpsScheme
  | blockedHost
  | blockedLiteralIP
  | dnsRebinding
  | unresolvableDomain
  | resolutionFailed
  | accepted
deriving DecidableEq

/-- Embedding of `validateImageUrl` (TypeScript source, src/unnamed/part_000):
parse check, HTTPS-only scheme check, hostname lower-casing and bracket
stripping, static blocked-hostname list, literal-IP branch through
`isBlockedIP`, and validation-time DNS resolution of domain names checked
against the same predicate. -/
def validateImageUrl (dns : List Char → DnsResult) (u : Option ParsedUrl) :
    ValidationOutcome :=
  match u with
  | none => .malformedUrl
  | some p =>
    if p.protocol == "https:" then
      let hostname := toLowerL p.hostname.data
      let clean := stripL hostname
      if clean == "localhost".data || clean == "metadata.google.internal".data ||
         clean == "metadata".data then .blockedHost
      else if isIPv4Core clean || isIPv6Core clean then
        if blockedAux clean.length clean then .blockedLiteralIP else .accepted
      else
        match dns hostname with
        | .resolved addr =>
          if blockedAux addr.length addr then .dnsRebinding else .accepted
        | .notFound => .unresolvableDomain
        | .failed => .resolutionFailed
    else .nonHttpsScheme

/-! ### Request dispatcher: error classification (`_makeRequest` catch block)

The catch block of `OpenAIVideoAPI._makeRequest` (src/video-api.js lines
253-282) is embedded as a pure classification of the caught error object.
`error.response?.data?.error?.message` is modelled as an optional string on
the response; JavaScript `||` falls through on the empty string, which the
embedding reproduces. -/

/-- The part of an axios error response the dispatcher reads: the HTTP status
and the optional upstream error detail `response.data.error.message`. -/
structure HttpResponse where
  status : Nat
  dataErrorMessage : Option String
deriving DecidableEq

/-- The caught error object: `name` and `code` (cancellation detection),
`message`, and the optional axios response. `response = none` models a
request that failed with no response at all. -/
structure RequestError where
  name : String
  code : String
  message : String
  response : Option HttpResponse
deriving DecidableEq

/-- The error taxonomy of the spec (§3 `ErrorClassification`), one
constructor per throw site of the catch block. -/
inductive ErrorClassification where
  | unauthorized
  | badRequest (detail : String)
  | notFound (detail : String)
  | rateLimited
  | serviceUnavailable
  | cancelled
  | network (detail : String)
  | unclassified (status : Nat) (detail : String)
deriving DecidableEq

/-- The static production message table of `_sanitizeErrorMessage`
(src/video-api.js lines 125-134). -/
def genericMessage (status : Nat) : Option String :=
  if status == 400 then some "Invalid request parameters"
  else if status == 401 then some "Authentication failed"
  else if status == 403 then some "Access forbidden"
  else if status == 404 then some "Resource not found"
  else if status == 429 then some "Rate limit exceeded"
  else if status == 500 then some "Service error"
  else if status == 502 then some "Service temporarily unavailable"
  else if status == 503 then some "Service temporarily unavailable"
  else none

/-- Embedding of `_sanitizeErrorMessage` (src/video-api.js lines 122-141):
in production mode the table lookup with the `'An error occurred'` fallback;
in development mode `error.response?.data?.error?.message || error.message`. -/
def sanitizeErrorMessage (production : Bool) (e : RequestError) (status : Nat) :
    String :=
  if production then
    match genericMessage status with
    | some m => m
    | none => "An error occurred"
  else
    match e.response with
    | some r =>
      match r.dataErrorMessage with
      | some m => if m == "" then e.message else m
      | none => e.message
    | none => e.message

/-- Embedding of the catch block of `_makeRequest` (src/video-api.js lines
253-282): cancellation detection by error name or code, then the
status-keyed classification, then the no-response network case. -/
def classifyRequestError (production : Bool) (e : RequestError) :
    ErrorClassification :=
  if e.name == "CanceledError" || e.code == "ERR_CANCELED" then .cancelled
  else
    match e.response with
    | some r =>
      let m := sanitizeErrorMessage production e r.status
      if r.status == 401 then .unauthorized
      else if r.status == 400 then .badRequest m
      else if r.status == 404 then .notFound m
      else if r.status == 429 then .rateLimited
      else if r.status == 500 || r.status == 502 || r.status == 503 then
        .serviceUnavailable
      else .unclassified r.status m
    | none => .network e.message

/-! ### Credential redaction (`_redactApiKey`) -/

/-- Embedding of `_redactApiKey` (src/video-api.js lines 108-113): keys of
fewer than 8 characters (which subsumes the `!apiKey` truthiness test, since
the empty string has length 0) redact to the fixed placeholder; otherwise the
fixed prefix `sk-...` followed by `apiKey.slice(-4)`, the last four
characters. -/
def redactApiKey (k : String) : String :=
  if k.length < 8 then "[REDACTED]"
  else "sk-..." ++ String.mk (k.data.drop (k.length - 4))

/-! ### Client construction and the rate limiter

The constructor of `OpenAIVideoAPI` (src/video-api.js lines 57-86) and the
pacing prologue of `_makeRequest` (lines 180-191).  Timestamps from
`Date.now()` are modelled as explicit `Int` arguments; the caller of the
step function supplies the clock reading at entry and the reading after the
optional pacing sleep. -/

/-- The mutable fields of a client instance that the dispatcher reads or
writes: credential, base address, `rateLimitDelay` and `lastRequestTime`
(the spec's `RateLimiterState`). -/
structure ClientState where
  apiKey : String
  baseUrl : String
  rateLimitDelay : Int
  lastRequestTime : Int
deriving DecidableEq

/-- Prefix test on strings, modelling `String.prototype.startsWith`. -/
def startsWithS (s p : String) : Bool :=
  p.data.isPrefixOf s.data

/-- The default base address `BASE_URL` from config. -/
def defaultBaseUrl : String := "https://api.openai.com"

/-- Embedding of the `OpenAIVideoAPI` constructor: `baseUrl = none` models an
omitted argument (defaulted to `BASE_URL`); a truthy (nonempty) base address
not starting with `https://` throws; otherwise the instance stores the base
address and initializes `lastRequestTime` to 0.  Logger setup and the
environment fallback for the key are I/O collaborators left out. -/
def constructClient (apiKey : String) (baseUrl : Option String)
    (rateLimitDelay : Int) : Except String ClientState :=
  let b := baseUrl.getD defaultBaseUrl
  if b != "" && !startsWithS b "https://" then
    .error "API base URL must use HTTPS protocol for security"
  else
    .ok { apiKey := apiKey, baseUrl := b, rateLimitDelay := rateLimitDelay,
          lastRequestTime := 0 }

/-- Embedding of the rate-limiting prologue of `_makeRequest`: with `now` the
clock reading at entry and `now2` the reading after the optional sleep
(`Date.now()` at line 191), returns the updated state and the pacing delay
that was requested (0 when the pacing branch is not taken, in particular on
the first request where `lastRequestTime` is still 0). -/
def makeRequestStep (st : ClientState) (now now2 : Int) : ClientState × Int :=
  let timeSince := now - st.lastRequestTime
  let delay :=
    if 0 < st.lastRequestTime ∧ timeSince < st.rateLimitDelay then
      st.rateLimitDelay - timeSince
    else 0
  ({ st with lastRequestTime := now2 }, delay)

/-! ### Job polling engine (`pollVideoWithProgress`)

The loop of `pollVideoWithProgress` (src/utils.js lines 535-607, identical in
the TypeScript source) is embedded as a fuel-indexed recursion over an
environment describing one execution: the job snapshot returned by each
status fetch, how long each fetch takes, how much longer than the requested
interval each sleep lasts (`setTimeout` never fires early), and at which
instants the cancellation signal reads as aborted.  The spinner is display
glue with no control-flow effect and is left out.  The result carries the
number of status fetches issued; `none` means the fuel ran out before the
loop reached a terminal outcome. -/

/-- The fields of a job snapshot the loop branches on: the status string and
the optional `error.message`. -/
structure VideoObject where
  status : String
  errorMessage : Option String
deriving DecidableEq

/-- One polling execution: `fetchResult k` is the snapshot returned by the
k-th fetch, `fetchDur k` its duration in ms, `sleepSlack k` how many ms the
k-th interval sleep overshoots the requested interval, and `aborted t`
whether the cancellation signal is set at time `t`. -/
structure PollEnv where
  fetchResult : Nat → VideoObject
  fetchDur : Nat → Nat
  sleepSlack : Nat → Nat
  aborted : Nat → Bool

/-- Terminal outcomes of one `pollVideoWithProgress` call: the returned
completed snapshot, or one of the three failure throws. -/
inductive PollResult where
  | completedJob (v : VideoObject)
  | failedJob (message : String)
  | timedOut
  | cancelled
deriving DecidableEq

/-- The polling loop: at the top of each iteration check the cancellation
signal, then the elapsed-time timeout (strict comparison `elapsed > timeout`),
then fetch the snapshot; return on `completed`, throw on `failed` (with the
job's error message, `'Video generation failed'` when absent or empty), and
otherwise sleep for the interval and repeat. -/
def pollLoop (env : PollEnv) (interval timeout startTime : Nat) :
    Nat → Nat → Nat → Option (PollResult × Nat)
  | 0, _, _ => none
  | fuel + 1, t, count =>
    if env.aborted t then some (.cancelled, count)
    else if t - startTime > timeout then some (.timedOut, count)
    else
      let video := env.fetchResult count
      if video.status == "completed" then some (.completedJob video, count + 1)
      else if video.status == "failed" then
        some (.failedJob
          (match video.errorMessage with
           | some m => if m == "" then "Video generation failed" else m
           | none => "Video generation failed"), count + 1)
      else
        pollLoop env interval timeout startTime fuel
          (t + env.fetchDur count + (interval + env.sleepSlack count))
          (count + 1)

/-- Embedding of one `pollVideoWithProgress` call starting at clock reading
`t0` (the `startTime = Date.now()` of the source), with zero fetches issued
so far.  `waitForVideo` delegates here after its argument checks. -/
def pollVideoWithProgress (env : PollEnv) (interval timeout fuel t0 : Nat) :
    Option (PollResult × Nat) :=
  pollLoop env interval timeout t0 fuel t0 0

/-- An execution in which every fetch reports an in-progress job. -/
def inProgressEnv (fetchDur sleepSlack : Nat) : PollEnv where
  fetchResult := fun _ => ⟨"in_progress", none⟩
  fetchDur := fun _ => fetchDur
  sleepSlack := fun _ => sleepSlack
  aborted := fun _ => false

/-- An execution whose cancellation signal is set from the very start. -/
def abortedEnv : PollEnv where
  fetchResult := fun _ => ⟨"in_progress", none⟩
  fetchDur := fun _ => 0
  sleepSlack := fun _ => 0
  aborted := fun _ => true

/-- The job sequence InProgress(25), InProgress(75), Completed. -/
def completesEnv : PollEnv where
  fetchResult := fun k => if k < 2 then ⟨"in_progress", none⟩ else ⟨"completed", none⟩
  fetchDur := fun _ => 5
  sleepSlack := fun _ => 0
  aborted := fun _ => false

/-- The textual ranges actually covered by the blocked-pattern list of
`isBlockedIP`: exactly the anchored patterns of the source (dotted-decimal
prefixes for the IPv4 ranges, the `172.16-31.` second-octet pattern, the
colon prefixes `fe80:`/`fc00:`/`fd00:` for the IPv6 ranges, the exact
loopback `::1`, and the metadata literal). -/
def inBlockedTextualRange (v : List Char) : Prop :=
  "127.".data.isPrefixOf v = true ∨
  "10.".data.isPrefixOf v = true ∨
  matches172 v = true ∨
  "192.168.".data.isPrefixOf v = true ∨
  "169.254.".data.isPrefixOf v = true ∨
  "0.".data.isPrefixOf v = true ∨
  v = "::1".data ∨
  "fe80:".data.isPrefixOf v = true ∨
  "fc00:".data.isPrefixOf v = true ∨
  "fd00:".data.isPrefixOf v = true ∨
  v = "169.254.169.254".data

/-! ## Helper lemmas -/

/-- Bracket stripping is the identity on inputs with no brackets to strip. -/
theorem stripL_id {l : List Char} (h1 : startsWithBracket l = false)
    (h2 : endsWithBracket l = false) : stripL l = l := by
  simp [stripL, stripHead, stripTail, h1, h2]

/-- Dropping a trailing bracket never lengthens the input. -/
theorem stripTail_length_le (l : List Char) : (stripTail l).length ≤ l.length := by
  unfold stripTail
  split <;> simp

/-- Bracket stripping never lengthens its input. -/
theorem stripL_length_le (l : List Char) : (stripL l).length ≤ l.length := by
  unfold stripL
  refine le_trans (stripTail_length_le (stripHead l)) ?_
  unfold stripHead
  split <;> simp

/-- When the `::ffff:` unwrap does not fire, both the fuelled recursion and
the shared body agree, for every fuel value. -/
theorem blockedAux_not_mapped (f : Nat) (ip : List Char)
    (h : mappedV4Check (stripL ip) = false) :
    blockedAux f ip = blockedBody (stripL ip) := by
  cases f <;> simp [blockedAux, h]

/-- A hit of the `::ffff:` check forces at least seven characters. -/
theorem mapped_length {l : List Char} (h : mappedV4Check l = true) :
    7 ≤ l.length := by
  unfold mappedV4Check at h
  rw [List.isPrefixOf_iff_prefix] at h
  have := h.length_le
  simpa [toLowerL] using this

/-- Fuel adequacy of the `isBlockedIP` embedding: any fuel at least the input
length computes the same answer, so fuel equal to the length (as used by
`isBlockedIP_ts`) realizes the unbounded recursion of the source, each unwrap
consuming seven characters. -/
theorem blockedAux_fuel : ∀ (f g : Nat) (ip : List Char),
    ip.length ≤ f → ip.length ≤ g → blockedAux f ip = blockedAux g ip := by
  intro f
  induction f using Nat.strong_induction_on with
  | _ f IH =>
    intro g ip hf hg
    by_cases hm : mappedV4Check (stripL ip) = true
    · have h7 : 7 ≤ (stripL ip).length := mapped_length hm
      have hlen : 7 ≤ ip.length := le_trans h7 (stripL_length_le ip)
      cases f with
      | zero => omega
      | succ f =>
        cases g with
        | zero => omega
        | succ g =>
          simp only [blockedAux, hm, if_true]
          apply IH f (Nat.lt_succ_self f)
          · have hd : ((stripL ip).drop 7).length = (stripL ip).length - 7 := by
              simp
            have := stripL_length_le ip
            omega
          · have hd : ((stripL ip).drop 7).length = (stripL ip).length - 7 := by
              simp
            have := stripL_length_le ip
            omega
    · have hm' : mappedV4Check (stripL ip) = false := by
        simpa using hm
      rw [blockedAux_not_mapped f ip hm', blockedAux_not_mapped g ip hm']

/-- One unfolding step of the fuelled recursion when the unwrap fires. -/
theorem blockedAux_succ (f : Nat) (ip : List Char)
    (h : mappedV4Check (stripL ip) = true) :
    blockedAux (f + 1) ip = blockedAux f ((stripL ip).drop 7) := by
  conv_lhs => rw [blockedAux.eq_def]
  simp only [h, if_true]

/-- A list that starts with a character whose lower case is not a colon
cannot pass the `::ffff:` check. -/
theorem mappedV4Check_cons_false (c : Char) (t : List Char)
    (h : Char.toLower c ≠ ':') : mappedV4Check (c :: t) = false := by
  have hne : (':' == Char.toLower c) = false := beq_eq_false_iff_ne.mpr (Ne.symm h)
  show ("::ffff:".data.isPrefixOf (toLowerL (c :: t))) = false
  have hdata : "::ffff:".data = ':' :: ":ffff:".data := rfl
  simp [toLowerL, hdata, List.isPrefixOf_cons₂, hne]

/-- Packaging of `mappedV4Check_cons_false` for prefix decompositions. -/
theorem mapped_false_of_head {p t : List Char} {c : Char} {cs : List Char}
    (hp : p = c :: cs) (hc : Char.toLower c ≠ ':') :
    mappedV4Check (p ++ t) = false := by
  subst hp
  exact mappedV4Check_cons_false c (cs ++ t) hc

/-- Every textual-range hit makes the shared pattern body true. -/
theorem range_blockedBody {v : List Char} (h : inBlockedTextualRange v) :
    blockedBody v = true := by
  unfold inBlockedTextualRange at h
  rcases h with h | h | h | h | h | h | h | h | h | h | h
  all_goals simp [blockedBody, h]

/-- No textual-range member triggers the `::ffff:` unwrap. -/
theorem range_not_mapped {v : List Char} (h : inBlockedTextualRange v) :
    mappedV4Check v = false := by
  unfold inBlockedTextualRange at h
  rcases h with h | h | h | h | h | h | h | h | h | h | h
  case inr.inr.inr.inr.inr.inr.inl => subst h; decide
  case inr.inr.inr.inr.inr.inr.inr.inr.inr.inr => subst h; decide
  case inr.inr.inl =>
    unfold matches172 at h
    rw [Bool.and_eq_true] at h
    obtain ⟨h, _⟩ := h
    rw [List.isPrefixOf_iff_prefix] at h
    obtain ⟨t, rfl⟩ := h
    exact mapped_false_of_head rfl (by decide)
  all_goals
    rw [List.isPrefixOf_iff_prefix] at h
  all_goals
    obtain ⟨t, rfl⟩ := h
  all_goals
    exact mapped_false_of_head rfl (by decide)

/-- No textual-range member starts with an opening bracket. -/
theorem range_not_bracket {v : List Char} (h : inBlockedTextualRange v) :
    startsWithBracket v = false := by
  unfold inBlockedTextualRange at h
  rcases h with h | h | h | h | h | h | h | h | h | h | h
  case inr.inr.inr.inr.inr.inr.inl => subst h; decide
  case inr.inr.inr.inr.inr.inr.inr.inr.inr.inr => subst h; decide
  case inr.inr.inl =>
    unfold matches172 at h
    rw [Bool.and_eq_true] at h
    obtain ⟨h, _⟩ := h
    rw [List.isPrefixOf_iff_prefix] at h
    obtain ⟨t, rfl⟩ := h
    rfl
  all_goals
    rw [List.isPrefixOf_iff_prefix] at h
  all_goals
    obtain ⟨t, rfl⟩ := h
  all_goals
    rfl

/-- No textual-range member equals one of the statically blocked hostnames. -/
theorem range_not_names {v : List Char} (h : inBlockedTextualRange v) :
    (v == "localhost".data || v == "metadata.google.internal".data ||
      v == "metadata".data) = false := by
  have h1 : v ≠ "localhost".data := by
    intro he; subst he; revert h; unfold inBlockedTextualRange; decide
  have h2 : v ≠ "metadata.google.internal".data := by
    intro he; subst he; revert h; unfold inBlockedTextualRange; decide
  have h3 : v ≠ "metadata".data := by
    intro he; subst he; revert h; unfold inBlockedTextualRange; decide
  simp [h1, h2, h3]

/-- A hostname starting with anything but the letters of the static
blocked-hostname list differs from all of them. -/
theorem names_false_of_head {c : Char} {t : List Char}
    (h1 : c ≠ 'l') (h2 : c ≠ 'm') :
    ((c :: t) == "localhost".data || (c :: t) == "metadata.google.internal".data ||
      (c :: t) == "metadata".data) = false := by
  have e1 : c :: t ≠ "localhost".data := by
    intro he
    exact h1 (by simpa using congrArg (fun l => l.head?) he)
  have e2 : c :: t ≠ "metadata.google.internal".data := by
    intro he
    exact h2 (by simpa using congrArg (fun l => l.head?) he)
  have e3 : c :: t ≠ "metadata".data := by
    intro he
    exact h2 (by simpa using congrArg (fun l => l.head?) he)
  simp only [Bool.or_eq_false_iff, beq_eq_false_iff_ne]
  exact ⟨⟨e1, e2⟩, e3⟩

/-- Textual-range members are blocked by the TypeScript predicate. -/
theorem blockedAux_of_range {v : List Char} (h : inBlockedTextualRange v)
    (hb2 : endsWithBracket v = false) : blockedAux v.length v = true := by
  have hb1 : startsWithBracket v = false := range_not_bracket h
  have hid : stripL v = v := stripL_id hb1 hb2
  rw [blockedAux_not_mapped _ _ (by rw [hid]; exact range_not_mapped h), hid]
  exact range_blockedBody h

/-- Appending to the left does not change the trailing-bracket test of a
nonempty list. -/
theorem endsWithBracket_append {a v : List Char} (hv : v ≠ []) :
    endsWithBracket (a ++ v) = endsWithBracket v := by
  unfold endsWithBracket
  rw [List.getLast?_append]
  cases hvl : v.getLast? with
  | some c => simp [Option.or]
  | none =>
    rw [List.getLast?_eq_none_iff] at hvl
    exact absurd hvl hv

/-- Reduction of `validateImageUrl` to its literal-IP reject branch: once the
lower-cased, bracket-stripped hostname is known, is none of the statically
blocked names, is recognized as an IP literal, and is blocked by the
predicate, the validator answers `BlockedLiteralIP`. -/
theorem validate_blockedLiteral (dns : List Char → DnsResult) (host : String)
    (clean : List Char) (hclean : stripL (toLowerL host.data) = clean)
    (hnames : (clean == "localhost".data || clean == "metadata.google.internal".data ||
      clean == "metadata".data) = false)
    (hip : (isIPv4Core clean || isIPv6Core clean) = true)
    (hblocked : blockedAux clean.length clean = true) :
    validateImageUrl dns (some ⟨"https:", host⟩) = .blockedLiteralIP := by
  rw [Bool.or_assoc] at hnames
  rw [Bool.or_eq_false_iff] at hnames
  obtain ⟨hn1, hnames⟩ := hnames
  rw [Bool.or_eq_false_iff] at hnames
  obtain ⟨hn2, hn3⟩ := hnames
  simp only [validateImageUrl, hclean, hn1, hn2, hn3, hip, hblocked]
  rfl

/-! ## Claims C2, C3, C4: the SSRF predicate and validator -/

/-- C2 (counterexample): the two copies of `isBlockedIP` are not
extensionally equal.  On the IPv4-mapped-IPv6 literal `::ffff:10.0.0.1` the
legacy JavaScript copy answers `false` (no pattern matches a `::ffff:`-prefixed
string) while the TypeScript copy unwraps the mapped prefix and blocks the
embedded `10.0.0.1`. -/
theorem isBlockedIP_copies_differ :
    isBlockedIP_js "::ffff:10.0.0.1" = false ∧
    isBlockedIP_ts "::ffff:10.0.0.1" = true := by
  decide

/-- C2 (amended): the legacy JavaScript copy and the TypeScript copy of
`isBlockedIP` agree on every input that does not trigger the `::ffff:`
unwrap, i.e. whose bracket-stripped form does not start (case-insensitively)
with `::ffff:`; they differ exactly on the unwrapped inputs. -/
theorem isBlockedIP_copies_agree_unmapped (s : String)
    (h : mappedV4Check (stripL s.data) = false) :
    isBlockedIP_js s = isBlockedIP_ts s := by
  unfold isBlockedIP_js isBlockedIP_ts
  rw [blockedAux_not_mapped _ _ h]

/-- Witness for C2 at a concrete non-`::ffff:` input. -/
theorem isBlockedIP_copies_agree_unmapped_witness :
    isBlockedIP_js "192.168.0.10" = isBlockedIP_ts "192.168.0.10" :=
  isBlockedIP_copies_agree_unmapped "192.168.0.10" (by decide)

/-- Supporting analysis for the `::ffff:` unwrap: on dotted-form
`::ffff:<v4>` strings (recognized as an IP literal by the Node collaborator)
whose embedded IPv4 part lies in a blocked textual range — `10.`, `192.168.`,
the `172.16`-`172.31` pattern, or the metadata address `169.254.169.254` —
the TypeScript predicate unwraps and blocks, and `validateImageUrl` would
reject with `BlockedLiteralIP`, for the bare string as well as for its
bracketed form.  Dotted is the shape DNS-resolved address strings take, but
not the shape the WHATWG URL parser produces for a hostname, which is why
this does not yield a URL-level guarantee (see `mapped_v4_url_bypass`). -/
theorem mapped_v4_literal_rejected (dns : List Char → DnsResult) (v4 : List Char)
    (hlow : toLowerL v4 = v4)
    (hnb : endsWithBracket v4 = false)
    (hrange : "10.".data.isPrefixOf v4 = true ∨
      "192.168.".data.isPrefixOf v4 = true ∨
      matches172 v4 = true ∨
      v4 = "169.254.169.254".data)
    (hip : (isIPv4Core ("::ffff:".data ++ v4) ||
      isIPv6Core ("::ffff:".data ++ v4)) = true) :
    isBlockedIP_ts (String.mk ("::ffff:".data ++ v4)) = true ∧
    validateImageUrl dns (some ⟨"https:", String.mk ("::ffff:".data ++ v4)⟩) =
      .blockedLiteralIP ∧
    validateImageUrl dns
      (some ⟨"https:", String.mk ('[' :: ("::ffff:".data ++ v4) ++ [']'])⟩) =
      .blockedLiteralIP := by
  have hr : inBlockedTextualRange v4 := by
    unfold inBlockedTextualRange
    tauto
  have hne : v4 ≠ [] := by
    intro he
    subst he
    rcases hrange with h | h | h | h <;> exact absurd h (by decide)
  have hlowm : toLowerL ("::ffff:".data ++ v4) = "::ffff:".data ++ v4 := by
    unfold toLowerL
    rw [List.map_append,
      show List.map Char.toLower "::ffff:".data = "::ffff:".data from by decide,
      show List.map Char.toLower v4 = v4 from hlow]
  have hewb : endsWithBracket ("::ffff:".data ++ v4) = false := by
    rw [endsWithBracket_append hne]
    exact hnb
  have hstrip : stripL ("::ffff:".data ++ v4) = "::ffff:".data ++ v4 :=
    stripL_id rfl hewb
  have hmapped : mappedV4Check ("::ffff:".data ++ v4) = true := by
    unfold mappedV4Check
    rw [hlowm, List.isPrefixOf_iff_prefix]
    exact List.prefix_append _ _
  have hnm : mappedV4Check (stripL v4) = false := by
    rw [stripL_id (range_not_bracket hr) hnb]
    exact range_not_mapped hr
  have hblk : blockedAux ("::ffff:".data ++ v4).length ("::ffff:".data ++ v4) =
      true := by
    have hlen : ("::ffff:".data ++ v4).length = v4.length + 7 := by
      simp [List.length_append]
    rw [hlen]
    rw [show v4.length + 7 = v4.length + 6 + 1 from rfl]
    rw [blockedAux_succ _ _ (by rw [hstrip]; exact hmapped)]
    rw [hstrip, List.drop_left' (show ("::ffff:".data).length = 7 from rfl)]
    rw [blockedAux_not_mapped _ _ hnm, stripL_id (range_not_bracket hr) hnb]
    exact range_blockedBody hr
  have hnames : (("::ffff:".data ++ v4) == "localhost".data ||
      ("::ffff:".data ++ v4) == "metadata.google.internal".data ||
      ("::ffff:".data ++ v4) == "metadata".data) = false :=
    names_false_of_head (c := ':') (by decide) (by decide)
  refine ⟨hblk, ?_, ?_⟩
  · exact validate_blockedLiteral dns _ _ (by rw [show (String.mk ("::ffff:".data ++ v4)).data = "::ffff:".data ++ v4 from rfl, hlowm, hstrip]) hnames hip hblk
  · have hmap2 : toLowerL ('[' :: ("::ffff:".data ++ v4) ++ [']']) =
        '[' :: ("::ffff:".data ++ v4) ++ [']'] := by
      unfold toLowerL
      rw [List.map_append, List.map_cons,
        show Char.toLower '[' = '[' from by decide,
        show List.map Char.toLower [']'] = [']'] from by decide,
        show List.map Char.toLower ("::ffff:".data ++ v4) = "::ffff:".data ++ v4
          from hlowm]
    have hclC : stripL (toLowerL ('[' :: ("::ffff:".data ++ v4) ++ [']'])) =
        "::ffff:".data ++ v4 := by
      rw [hmap2]
      show stripTail (stripHead ('[' :: ("::ffff:".data ++ v4) ++ [']'])) = _
      rw [show stripHead ('[' :: ("::ffff:".data ++ v4) ++ [']']) =
        ("::ffff:".data ++ v4) ++ [']'] from rfl]
      unfold stripTail
      rw [show endsWithBracket (("::ffff:".data ++ v4) ++ [']']) = true from by
        rw [endsWithBracket_append (by simp)]
        decide]
      simp only [if_true]
      exact List.dropLast_concat
    exact validate_blockedLiteral dns _ _ hclC hnames hip hblk

/-- Concrete instance of `mapped_v4_literal_rejected` at the dotted mapped
metadata-service address, with the DNS oracle irrelevant to the literal
branch. -/
theorem mapped_v4_literal_rejected_witness :
    validateImageUrl (fun _ => DnsResult.failed)
      (some ⟨"https:", String.mk ("::ffff:".data ++ "169.254.169.254".data)⟩) =
      .blockedLiteralIP :=
  (mapped_v4_literal_rejected (fun _ => DnsResult.failed) "169.254.169.254".data
    (by decide) (by decide) (Or.inr (Or.inr (Or.inr rfl))) (by decide)).2.1

/-- C3 (code bug): the unwrap does not protect the URL path.  The WHATWG
`URL` parser canonicalizes IPv6 hostnames to hex groups, so the URL
`https://[::ffff:10.0.0.1]/` reaches the validator with hostname
`[::ffff:a00:1]` (a00 hex = 10.0, 1 = 0.1) and
`https://[::ffff:169.254.169.254]/` with `[::ffff:a9fe:a9fe]`
(a9 = 169, fe = 254).  On these canonical forms the unwrap yields the hex
tails `a00:1` and `a9fe:a9fe`, which match none of the dotted blocked
patterns, so the predicate answers `false` and `validateImageUrl` accepts
both URLs — contrary to the claim and to the source's own comment that the
unwrap "prevents SSRF bypass using addresses like ::ffff:127.0.0.1".  The
dotted forms the patterns do catch (previous theorem) are produced by DNS
resolution, never by URL parsing. -/
theorem mapped_v4_url_bypass :
    validateImageUrl (fun _ => DnsResult.failed)
      (some ⟨"https:", "[::ffff:a00:1]"⟩) = .accepted ∧
    isBlockedIP_ts "::ffff:a00:1" = false ∧
    validateImageUrl (fun _ => DnsResult.failed)
      (some ⟨"https:", "[::ffff:a9fe:a9fe]"⟩) = .accepted ∧
    isBlockedIP_ts "::ffff:a9fe:a9fe" = false ∧
    isBlockedIP_ts "::ffff:10.0.0.1" = true ∧
    isBlockedIP_ts "::ffff:169.254.169.254" = true ∧
    (0xa00 / 0x100 = 10 ∧ 0xa00 % 0x100 = 0 ∧
     (0x1 : Nat) / 0x100 = 0 ∧ (0x1 : Nat) % 0x100 = 1 ∧
     0xa9fe / 0x100 = 169 ∧ 0xa9fe % 0x100 = 254) := by
  decide

/-- C4 (counterexample): the blocked-range predicate does not block every
address of the listed IPv6 ranges.  `fe81::1` lies in `fe80::/10` (its
leading 16-bit group shares the 10-bit prefix of `fe80`), is a valid IPv6
literal, yet the predicate answers `false` and `validateImageUrl` accepts
the URL, because the source tests the textual prefix `fe80:` rather than the
numeric `/10` range (likewise `fc01::1` inside `fc00::/7`). -/
theorem validator_fe80_gap_counterexample :
    (0xfe81 / 0x40 = 0xfe80 / 0x40 ∧ isIPv6 "fe81::1" = true) ∧
    isBlockedIP_ts "fe81::1" = false ∧
    validateImageUrl (fun _ => DnsResult.failed) (some ⟨"https:", "fe81::1"⟩) =
      .accepted ∧
    isBlockedIP_ts "fc01::1" = false := by
  decide

/-- C4 (amended): the blocked-range predicate blocks — and `validateImageUrl`
rejects with `BlockedLiteralIP` — every IP literal in the textual ranges the
source actually tests: dotted prefixes `127.`, `10.`, `192.168.`, `169.254.`,
`0.`, the `172.16`-`172.31` pattern, the exact literal `::1`, the metadata
address `169.254.169.254`, and IPv6 literals textually starting with `fe80:`,
`fc00:` or `fd00:` (for canonical dotted-quad literals these cover exactly
the claimed IPv4 ranges; for the IPv6 `/10` and `/7` ranges only the
textual-prefix subsets are blocked, cf. the counterexample); the metadata
hostnames themselves are rejected with `BlockedHost`. -/
theorem validator_blocks_textual_ranges (dns : List Char → DnsResult)
    (host : String)
    (hlow : toLowerL host.data = host.data)
    (hb1 : startsWithBracket host.data = false)
    (hb2 : endsWithBracket host.data = false)
    (hip : (isIPv4Core host.data || isIPv6Core host.data) = true)
    (hrange : inBlockedTextualRange host.data) :
    isBlockedIP_ts host = true ∧
    validateImageUrl dns (some ⟨"https:", host⟩) = .blockedLiteralIP ∧
    validateImageUrl dns (some ⟨"https:", "localhost"⟩) = .blockedHost ∧
    validateImageUrl dns (some ⟨"https:", "metadata.google.internal"⟩) =
      .blockedHost ∧
    validateImageUrl dns (some ⟨"https:", "metadata"⟩) = .blockedHost := by
  have hblk : blockedAux host.data.length host.data = true :=
    blockedAux_of_range hrange hb2
  refine ⟨hblk, ?_, rfl, rfl, rfl⟩
  exact validate_blockedLiteral dns _ _
    (by rw [hlow, stripL_id hb1 hb2]) (range_not_names hrange) hip hblk

/-- Witness for C4 at a private-range IPv4 literal and coverage samples for
the remaining ranges through the predicate conjunct. -/
theorem validator_blocks_textual_ranges_witness :
    isBlockedIP_ts "10.1.2.3" = true ∧
    validateImageUrl (fun _ => DnsResult.failed) (some ⟨"https:", "10.1.2.3"⟩) =
      .blockedLiteralIP ∧
    validateImageUrl (fun _ => DnsResult.failed) (some ⟨"https:", "fe80::1"⟩) =
      .blockedLiteralIP := by
  have h1 := validator_blocks_textual_ranges (fun _ => DnsResult.failed)
    "10.1.2.3" (by decide) (by decide) (by decide) (by decide)
    (by unfold inBlockedTextualRange; decide)
  have h2 := validator_blocks_textual_ranges (fun _ => DnsResult.failed)
    "fe80::1" (by decide) (by decide) (by decide) (by decide)
    (by unfold inBlockedTextualRange; decide)
  exact ⟨h1.1, h1.2.1, h2.2.1⟩

/-! ## Claim C1: dispatcher error classification -/

/-- C1: for every failed request that is not a cancellation, the catch block
classifies by status — 401 to Unauthorized, 400 to BadRequest, 404 to
NotFound, 429 to RateLimited, 500/502/503 to ServiceUnavailable, any other
status with a response to Unclassified carrying that status, and no response
at all to Network; moreover `_sanitizeErrorMessage` in production mode
returns a fixed phrase per status for 400/401/403/404/429/500/502/503
(independent of the error object), while in development mode it passes the
upstream detail through (falling back to the error message when the detail
is absent or empty). -/
theorem dispatcher_error_classification (production : Bool) (e : RequestError)
    (hnc : (e.name == "CanceledError" || e.code == "ERR_CANCELED") = false) :
    (∀ r, e.response = some r → r.status = 401 →
      classifyRequestError production e = .unauthorized) ∧
    (∀ r, e.response = some r → r.status = 400 →
      classifyRequestError production e =
        .badRequest (sanitizeErrorMessage production e 400)) ∧
    (∀ r, e.response = some r → r.status = 404 →
      classifyRequestError production e =
        .notFound (sanitizeErrorMessage production e 404)) ∧
    (∀ r, e.response = some r → r.status = 429 →
      classifyRequestError production e = .rateLimited) ∧
    (∀ r, e.response = some r →
      (r.status = 500 ∨ r.status = 502 ∨ r.status = 503) →
      classifyRequestError production e = .serviceUnavailable) ∧
    (∀ r, e.response = some r →
      r.status ∉ ([400, 401, 404, 429, 500, 502, 503] : List Nat) →
      classifyRequestError production e =
        .unclassified r.status (sanitizeErrorMessage production e r.status)) ∧
    (e.response = none → classifyRequestError production e = .network e.message) ∧
    (∀ s, s ∈ ([400, 401, 403, 404, 429, 500, 502, 503] : List Nat) →
      ∀ e2 : RequestError,
        sanitizeErrorMessage true e s = sanitizeErrorMessage true e2 s ∧
        (genericMessage s).isSome = true) ∧
    (∀ s r m, e.response = some r → r.dataErrorMessage = some m → m ≠ "" →
      sanitizeErrorMessage false e s = m) ∧
    (∀ s r, e.response = some r → r.dataErrorMessage = none →
      sanitizeErrorMessage false e s = e.message) := by
  refine ⟨?_, ?_, ?_, ?_, ?_, ?_, ?_, ?_, ?_, ?_⟩
  · intro r hr hs
    simp [classifyRequestError, hnc, hr, hs]
  · intro r hr hs
    simp [classifyRequestError, hnc, hr, hs]
  · intro r hr hs
    simp [classifyRequestError, hnc, hr, hs]
  · intro r hr hs
    simp [classifyRequestError, hnc, hr, hs]
  · intro r hr hs
    rcases hs with hs | hs | hs <;> simp [classifyRequestError, hnc, hr, hs]
  · intro r hr hs
    simp only [List.mem_cons, List.not_mem_nil, or_false, not_or] at hs
    obtain ⟨n400, n401, n404, n429, n500, n502, n503⟩ := hs
    simp [classifyRequestError, hnc, hr, n400, n401, n404, n429, n500, n502, n503]
  · intro hr
    simp [classifyRequestError, hnc, hr]
  · intro s hs e2
    simp only [List.mem_cons, List.not_mem_nil, or_false] at hs
    rcases hs with rfl | rfl | rfl | rfl | rfl | rfl | rfl | rfl <;> exact ⟨rfl, rfl⟩
  · intro s r m hr hm hne
    simp [sanitizeErrorMessage, hr, hm, hne]
  · intro s r hr hm
    simp [sanitizeErrorMessage, hr, hm]

/-- Witness for C1: a production-mode 400 with an upstream detail maps to
BadRequest carrying the fixed production phrase, and the same error in
development mode carries the upstream detail. -/
theorem dispatcher_error_classification_witness :
    classifyRequestError true ⟨"Error", "ERR_BAD_REQUEST", "boom", some ⟨400, some "upstream detail"⟩⟩ =
      .badRequest "Invalid request parameters" ∧
    classifyRequestError false ⟨"Error", "ERR_BAD_REQUEST", "boom", some ⟨400, some "upstream detail"⟩⟩ =
      .badRequest "upstream detail" := by
  constructor
  · have h := (dispatcher_error_classification true
      ⟨"Error", "ERR_BAD_REQUEST", "boom", some ⟨400, some "upstream detail"⟩⟩
      (by decide)).2.1 ⟨400, some "upstream detail"⟩ rfl rfl
    rw [h]
    rfl
  · have h := (dispatcher_error_classification false
      ⟨"Error", "ERR_BAD_REQUEST", "boom", some ⟨400, some "upstream detail"⟩⟩
      (by decide)).2.1 ⟨400, some "upstream detail"⟩ rfl rfl
    rw [h]
    rfl

/-! ## Claim C7: credential redaction -/

/-- C7: a credential shorter than 8 characters redacts to the fixed
placeholder (a constant revealing nothing); a credential of length at least 8
redacts to the fixed prefix `sk-...` followed by exactly its last 4
characters, and nothing but the last 4 characters influences the result (two
credentials sharing them redact identically). -/
theorem credential_redaction (k : String) :
    (k.length < 8 → redactApiKey k = "[REDACTED]") ∧
    (8 ≤ k.length →
      redactApiKey k = "sk-..." ++ String.mk (k.data.drop (k.length - 4)) ∧
      ∀ k2 : String, 8 ≤ k2.length →
        k2.data.drop (k2.length - 4) = k.data.drop (k.length - 4) →
        redactApiKey k2 = redactApiKey k) := by
  constructor
  · intro h
    simp [redactApiKey, h]
  · intro h
    have hlt : ¬ k.length < 8 := by omega
    refine ⟨by simp [redactApiKey, hlt], ?_⟩
    intro k2 h2 heq
    have hlt2 : ¬ k2.length < 8 := by omega
    simp [redactApiKey, hlt, hlt2, heq]

/-- Witness for C7: a short key fully redacts, a long key keeps its last 4
characters after the fixed prefix. -/
theorem credential_redaction_witness :
    redactApiKey "abc" = "[REDACTED]" ∧
    redactApiKey "sk-proj-wxyz1234" =
      "sk-..." ++ String.mk ("sk-proj-wxyz1234".data.drop
        ("sk-proj-wxyz1234".length - 4)) :=
  ⟨(credential_redaction "abc").1 (by decide),
   ((credential_redaction "sk-proj-wxyz1234").2 (by decide)).1⟩

/-! ## Claims C8, C9, C10: constructor and rate limiter -/

/-- C9 (counterexample): the HTTPS check is guarded by JavaScript truthiness
(`if (baseUrl && ...)`), so the empty base-address string — which does not
begin with the secure scheme — is accepted at construction time and stored in
the instance. -/
theorem https_check_empty_counterexample :
    constructClient "k" (some "") 1000 = .ok ⟨"k", "", 1000, 0⟩ ∧
    startsWithS "" "https://" = false :=
  ⟨rfl, rfl⟩

/-- C9 (amended): every nonempty base-address string not beginning with
`https://` is rejected at construction time, and consequently every
successfully constructed instance holds a base address that is either the
empty string (the sole truthiness exception) or begins with `https://`. -/
theorem https_enforced_at_construction (apiKey : String) (b : String) (d : Int)
    (hne : b ≠ "") (hs : startsWithS b "https://" = false) :
    constructClient apiKey (some b) d =
      .error "API base URL must use HTTPS protocol for security" ∧
    (∀ bu st, constructClient apiKey bu d = .ok st →
      st.baseUrl = "" ∨ startsWithS st.baseUrl "https://" = true) := by
  constructor
  · unfold constructClient
    simp [Option.getD, hne, hs]
  · intro bu st h
    simp only [constructClient] at h
    split at h
    · exact Except.noConfusion h
    · next hcond =>
      rw [Except.ok.injEq] at h
      subst h
      by_cases hb : bu.getD defaultBaseUrl = ""
      · exact Or.inl hb
      · right
        by_cases hs2 : startsWithS (bu.getD defaultBaseUrl) "https://" = true
        · exact hs2
        · exfalso
          apply hcond
          have hsf : startsWithS (bu.getD defaultBaseUrl) "https://" = false := by
            revert hs2
            cases startsWithS (bu.getD defaultBaseUrl) "https://" <;> simp
          simp [hb, hsf]

/-- Witness for C9 at a plain-HTTP base address. -/
theorem https_enforced_at_construction_witness :
    constructClient "k" (some "http://api.openai.com") 1000 =
      .error "API base URL must use HTTPS protocol for security" :=
  (https_enforced_at_construction "k" "http://api.openai.com" 1000
    (by decide) (by decide)).1

/-- C8: `lastRequestTime` is initialized to 0 at construction, and a
`_makeRequest` step writes a clock reading at least as large as the previous
value (the entry reading is taken after the previous write, and the
post-sleep reading is no earlier than the entry reading), leaving the
configured delay untouched — so within one instance the stored timestamp is
monotonically non-decreasing. -/
theorem lastRequestTime_monotone (st : ClientState) (now now2 : Int)
    (h1 : st.lastRequestTime ≤ now) (h2 : now ≤ now2) :
    st.lastRequestTime ≤ (makeRequestStep st now now2).1.lastRequestTime ∧
    (makeRequestStep st now now2).1.rateLimitDelay = st.rateLimitDelay ∧
    (∀ apiKey baseUrl d st0, constructClient apiKey baseUrl d = .ok st0 →
      st0.lastRequestTime = 0) := by
  refine ⟨?_, rfl, ?_⟩
  · show st.lastRequestTime ≤ now2
    omega
  · intro a bu d st0 h
    simp only [constructClient] at h
    split at h
    · exact Except.noConfusion h
    · rw [Except.ok.injEq] at h
      subst h
      rfl

/-- Witness for C8 at a concrete paced step. -/
theorem lastRequestTime_monotone_witness :
    (5 : Int) ≤ (makeRequestStep ⟨"k", "https://api.openai.com", 1000, 5⟩ 7 9).1.lastRequestTime :=
  (lastRequestTime_monotone ⟨"k", "https://api.openai.com", 1000, 5⟩ 7 9
    (by decide) (by decide)).1

/-- C10: on a freshly constructed instance the pacing branch is guarded by
`lastRequestTime > 0` and `lastRequestTime` is initialized to 0, so the first
request is issued with zero pacing delay regardless of the configured
minimum delay and of the clock readings. -/
theorem first_request_no_pacing_delay (apiKey : String) (baseUrl : Option String)
    (d : Int) (st : ClientState) (h : constructClient apiKey baseUrl d = .ok st)
    (now now2 : Int) : (makeRequestStep st now now2).2 = 0 := by
  have hz : st.lastRequestTime = 0 := by
    simp only [constructClient] at h
    split at h
    · exact Except.noConfusion h
    · rw [Except.ok.injEq] at h
      subst h
      rfl
  unfold makeRequestStep
  simp [hz]

/-- Witness for C10 on the default-configuration instance. -/
theorem first_request_no_pacing_delay_witness :
    (makeRequestStep ⟨"k", "https://api.openai.com", 1000, 0⟩ 12345 12345).2 = 0 :=
  first_request_no_pacing_delay "k" none 1000
    ⟨"k", "https://api.openai.com", 1000, 0⟩ rfl 12345 12345

/-! ## Claims C5, C6: polling engine -/

/-- C5: once the cancellation token is signaled (from instant `tA` on), any
poll iteration entered at or after `tA` terminates immediately with
`Cancelled` and performs no further status fetch (the fetch count is
returned unchanged); in particular a `waitForJob` call whose token is
already signaled at session start fails with `Cancelled` after exactly zero
fetches. -/
theorem cancellation_is_terminal (env : PollEnv)
    (interval timeout startTime fuel tA : Nat)
    (hsig : ∀ u, tA ≤ u → env.aborted u = true) (hfuel : 0 < fuel) :
    (∀ t count, tA ≤ t →
      pollLoop env interval timeout startTime fuel t count =
        some (.cancelled, count)) ∧
    (tA ≤ startTime →
      pollVideoWithProgress env interval timeout fuel startTime =
        some (.cancelled, 0)) := by
  have hmain : ∀ t count, tA ≤ t →
      pollLoop env interval timeout startTime fuel t count =
        some (.cancelled, count) := by
    intro t count ht
    obtain ⟨f, rfl⟩ : ∃ f, fuel = f + 1 := ⟨fuel - 1, by omega⟩
    simp [pollLoop, hsig t ht]
  exact ⟨hmain, fun hst => hmain startTime 0 hst⟩

/-- Witness for C5: a pre-signaled token yields `Cancelled` with zero
fetches. -/
theorem cancellation_is_terminal_witness :
    pollVideoWithProgress abortedEnv 10000 600000 3 0 = some (.cancelled, 0) :=
  (cancellation_is_terminal abortedEnv 10000 600000 0 3 0
    (fun _ _ => rfl) (by decide)).2 (by decide)

/-- One non-terminal polling iteration: not cancelled, within the timeout,
job still in progress — the loop fetches once and re-enters after the fetch
duration plus the interval sleep. -/
theorem pollLoop_step (env : PollEnv) (t0 f t c : Nat)
    (ha : env.aborted t = false)
    (hst : (env.fetchResult c).status = "in_progress")
    (hto : t - t0 ≤ 200) :
    pollLoop env 100 200 t0 (f + 1) t c =
      pollLoop env 100 200 t0 f
        (t + env.fetchDur c + (100 + env.sleepSlack c)) (c + 1) := by
  have hto2 : ¬ (t - t0 > 200) := by omega
  simp [pollLoop, ha, hto2, hst,
    show (("in_progress" : String) == "completed") = false from by decide,
    show (("in_progress" : String) == "failed") = false from by decide]

/-- A polling iteration entered past the timeout (and not cancelled)
terminates with `TimedOut` without fetching. -/
theorem pollLoop_stop (env : PollEnv) (t0 f t c : Nat)
    (ha : env.aborted t = false) (hto : t - t0 > 200) :
    pollLoop env 100 200 t0 (f + 1) t c = some (.timedOut, c) := by
  simp [pollLoop, ha, hto]

/-- C6 (amended): for a job that never leaves `in_progress`, with
`timeoutMs = 200` and `intervalMs = 100`, a never-cancelled session whose
status fetches each take at least 1 ms fails with `TimedOut` after at most 2
fetches — the timeout test compares the elapsed time since session start at
the top of each iteration, before any fetch.  (When a fetch is modelled as
instantaneous and the sleeps as exact, the strict `elapsed > timeout`
comparison admits one more fetch; see the counterexample.) -/
theorem inprogress_short_timeout (env : PollEnv) (fuel t0 : Nat)
    (hst : ∀ k, (env.fetchResult k).status = "in_progress")
    (hab : ∀ t, env.aborted t = false)
    (hf : ∀ k, 1 ≤ env.fetchDur k)
    (hfuel : 3 ≤ fuel) :
    ∃ n, n ≤ 2 ∧
      pollVideoWithProgress env 100 200 fuel t0 = some (.timedOut, n) := by
  obtain ⟨f, rfl⟩ : ∃ f, fuel = f + 3 := ⟨fuel - 3, by omega⟩
  unfold pollVideoWithProgress
  rw [show f + 3 = f + 2 + 1 from rfl]
  rw [pollLoop_step env t0 (f + 2) t0 0 (hab t0) (hst 0) (by omega)]
  by_cases hcase :
    (t0 + env.fetchDur 0 + (100 + env.sleepSlack 0)) - t0 > 200
  · rw [show f + 2 = f + 1 + 1 from rfl]
    rw [pollLoop_stop env t0 (f + 1) _ 1 (hab _) hcase]
    exact ⟨1, by omega, rfl⟩
  · rw [show f + 2 = f + 1 + 1 from rfl]
    rw [pollLoop_step env t0 (f + 1) _ 1 (hab _) (hst 1) (by omega)]
    have h0 := hf 0
    have h1 := hf 1
    rw [pollLoop_stop env t0 f _ 2 (hab _) (by omega)]
    exact ⟨2, by omega, rfl⟩

/-- Witness for C6: with 1 ms fetches and exact sleeps the session times out
after exactly 2 fetches. -/
theorem inprogress_short_timeout_witness :
    ∃ n, n ≤ 2 ∧
      pollVideoWithProgress (inProgressEnv 1 0) 100 200 10 0 =
        some (.timedOut, n) :=
  inprogress_short_timeout (inProgressEnv 1 0) 10 0
    (fun _ => rfl) (fun _ => rfl) (fun _ => Nat.le_refl 1) (by decide)

/-- C6 (counterexample): in the boundary execution where every fetch is
instantaneous and every sleep lasts exactly the 100 ms interval, the elapsed
time at the top of the third iteration is exactly 200 ms, the strict
`elapsed > timeout` comparison does not fire, and a third fetch is issued
before the session fails with `TimedOut` — refuting "at most 2 fetches". -/
theorem inprogress_short_timeout_counterexample :
    pollVideoWithProgress (inProgressEnv 0 0) 100 200 10 0 =
      some (.timedOut, 3) := by
  decide

/-! ## Sanity checks of the collaborator models and the embedding -/

/-- Spot checks of the Node `net.isIPv4` / `net.isIPv6` models against the
documented behaviour of the collaborator. -/
theorem ip_literal_model_sanity :
    isIPv4 "10.0.0.1" = true ∧ isIPv4 "10.01.0.1" = false ∧
    isIPv4 "256.0.0.1" = false ∧ isIPv4 "10.0.1" = false ∧
    isIPv6 "::1" = true ∧ isIPv6 "::" = true ∧ isIPv6 "fe80::1" = true ∧
    isIPv6 "::ffff:10.0.0.1" = true ∧ isIPv6 "1:2:3:4:5:6:7:8" = true ∧
    isIPv6 "1:2:3:4:5:6:1.2.3.4" = true ∧ isIPv6 "1:2:3:4:5:6:7:8:9" = false ∧
    isIPv6 "1:::2" = false ∧ isIPv6 "1::2::3" = false ∧
    isIPv6 "example.com" = false ∧ isIPv6 "localhost" = false ∧
    isIPv6 "10.0.0.1" = false ∧ isIPv6 ":1" = false ∧ isIPv6 "1:" = false := by
  decide

/-- Spot checks of the validator embedding: each outcome of the taxonomy is
reachable on the expected inputs. -/
theorem validator_model_sanity :
    validateImageUrl (fun _ => .failed) (some ⟨"http:", "example.com"⟩) =
      .nonHttpsScheme ∧
    validateImageUrl (fun _ => .failed) (some ⟨"https:", "LOCALHOST"⟩) =
      .blockedHost ∧
    validateImageUrl (fun _ => .failed) (some ⟨"https:", "[::ffff:10.2.3.4]"⟩) =
      .blockedLiteralIP ∧
    validateImageUrl (fun _ => .resolved "10.0.0.5".data)
      (some ⟨"https:", "internal.example"⟩) = .dnsRebinding ∧
    validateImageUrl (fun _ => .resolved "93.184.216.34".data)
      (some ⟨"https:", "example.com"⟩) = .accepted ∧
    validateImageUrl (fun _ => .notFound) (some ⟨"https:", "nope.example"⟩) =
      .unresolvableDomain ∧
    validateImageUrl (fun _ => .failed) none = .malformedUrl := by
  decide

/-- Spot checks of the polling embedding: the spec's
`[InProgress, InProgress, Completed]` sequence completes after exactly three
fetches. -/
theorem polling_model_sanity :
    pollVideoWithProgress completesEnv 100 10000 10 0 =
      some (.completedJob ⟨"completed", none⟩, 3) := by
  decide

end OpenAIImageApi
